import Mathlib

/-!
Verification of the invoice_bot upload orchestration engine
(src/invoice_bot/portal_uploader.py and src/invoice_bot/main.py) against its
design specification.

The Python code is shallowly embedded: the browser-automation driver is an
opaque capability, so every page operation (navigate, fill, click, wait,
count, read text) is modelled by an oracle value of type `Except PyExc _`
describing what that call would return or raise on a given attempt.  Pure
control flow (the retry loop, the per-row workflow, duplicate dispatch,
result assembly, exit-code policy, resource release) is translated directly
from the source.  Observable effects (function invocations, backoff sleeps,
page operations, resource closes) are recorded in explicit event lists so
that ordering and counting properties can be stated.
-/

/-- A Python exception value, as far as the embedded code inspects it:
its type name and its `str(e)` message.  `timeoutError` is
`playwright.async_api.TimeoutError` (tested with `isinstance` at
portal_uploader.py line 130); `nameError` and `valueError` are the builtin
`NameError` and `ValueError`; `other` covers every remaining type. -/
inductive PyExc where
  | timeoutError (msg : String)
  | nameError (msg : String)
  | valueError (msg : String)
  | other (typeName msg : String)
deriving DecidableEq, Repr

/-- The `type(e).__name__` of an exception. -/
def PyExc.typeName : PyExc → String
  | .timeoutError _ => "TimeoutError"
  | .nameError _ => "NameError"
  | .valueError _ => "ValueError"
  | .other t _ => t

/-- The `str(e)` of an exception. -/
def PyExc.msg : PyExc → String
  | .timeoutError m => m
  | .nameError m => m
  | .valueError m => m
  | .other _ m => m

/-- Whether the exception is a Playwright `TimeoutError`
(the `isinstance(e, TimeoutError)` test). -/
def PyExc.isTimeout : PyExc → Bool
  | .timeoutError _ => true
  | _ => false

/-- Whether `pat` occurs at the head of the second list. -/
def leadsWith : List Char → List Char → Bool
  | [], _ => true
  | _ :: _, [] => false
  | a :: as, b :: bs => (a == b) && leadsWith as bs

/-- Whether `pat` occurs contiguously anywhere in the second list. -/
def occursIn (pat : List Char) : List Char → Bool
  | [] => match pat with | [] => true | _ => false
  | c :: rest => leadsWith pat (c :: rest) || occursIn pat rest

/-- Python substring test `pat in s`. -/
def strContains (s pat : String) : Bool :=
  occursIn pat.data s.data

deriving instance DecidableEq for Except

/-- The structured error message built at portal_uploader.py line 230:
`f"{type(e).__name__}: {str(e)}"`. -/
def errorString (e : PyExc) : String :=
  e.typeName ++ ": " ++ e.msg

/-- Observable events of one row workflow: each page call made, each
invocation of the retried function, and each backoff sleep. -/
inductive Event where
  | attempt (k : Nat)
  | sleep (ms : Nat)
  | navigate
  | dupCheck
  | extractExisting
  | fillServiceId
  | fillPrice
  | setInputFiles
  | fillDescription
  | fillInvoiceDate
  | clickSubmit
  | waitSuccess
  | readPortalId
  | closePage
deriving DecidableEq, Repr

/-- The `status` field of a row outcome. -/
inductive Status where
  | OK
  | SKIP
  | ERROR
deriving DecidableEq, Repr

/-- The result dictionary built by `upload_row`: status, portal_id,
error_msg, processed_ts (portal_uploader.py lines 177-182, 211-216,
233-238). -/
structure RowOutcome where
  status : Status
  portal_id : Option String
  error_msg : Option String
  processed_ts : String
deriving DecidableEq, Repr

/-- One input row (main.py REQUIRED_COLUMNS plus the optional fields).
`price` holds the already-formatted price text; numeric formatting by
`format(float(row["price"]), ".2f")` is abstracted since no claim
concerns it.  `none` for an optional field models an absent column;
`some ""` models a present but empty (falsy) value. -/
structure InputRow where
  service_id : String
  price : String
  invoice_path : String
  description : Option String
  invoice_date : Option String
deriving DecidableEq, Repr

/-- Oracle for one attempt of the row workflow: what each page call of
`do_upload` (portal_uploader.py lines 160-216) would return or raise if
executed on that attempt. -/
structure DriverAttempt where
  goto : Except PyExc Unit
  dupCount : Except PyExc Nat
  extractExisting : Except PyExc String
  fillServiceId : Except PyExc Unit
  fillPrice : Except PyExc Unit
  setInputFiles : Except PyExc Unit
  fillDescription : Except PyExc Unit
  fillInvoiceDate : Except PyExc Unit
  clickSubmit : Except PyExc Unit
  waitSuccess : Except PyExc Unit
  readPortalId : Except PyExc String
deriving DecidableEq, Repr

/-- Evaluation of the expression `datetime.now().isoformat()` in the
namespace of portal_uploader.py.  The module imports asyncio, os, time,
pathlib, typing, loguru and playwright (lines 1-8) but never `datetime`,
so the evaluation raises `NameError` (Python text:
`name 'datetime' is not defined`; the quotes are elided here). -/
def datetimeNow : Except PyExc String :=
  .error (.nameError "name datetime is not defined")

/-- The retryability test of `_retry_with_backoff` (portal_uploader.py
line 130): `isinstance(e, TimeoutError) or "429" in str(e) or
"Rate Limit" in str(e)`. -/
def isRetryableExc (e : PyExc) : Bool :=
  e.isTimeout || strContains e.msg "429" || strContains e.msg "Rate Limit"

/-- Modelled from the spec, section 4.3, for comparison with the code:
an error is retryable iff it is a timeout waiting for a UI element, or
its message indicates an HTTP 429, or an explicit rate-limit signal from
the portal. -/
def retryableSpec (e : PyExc) : Prop :=
  e.isTimeout = true ∨ strContains e.msg "429" = true ∨
    strContains e.msg "Rate Limit" = true

/-- The loop of `_retry_with_backoff` (portal_uploader.py lines 116-144).
`op k` is the result and event trace of the k-th invocation of `func`
(the retried function is effectful, so successive invocations are
modelled by the index).  `budget` is `max_retries - retries`, so the
source guard `retries + 1 <= max_retries` is `budget > 0`; on a
retryable failure with budget left the code sleeps
`(2 ** retries) * 1000` ms with the incremented counter and loops, on a
non-retryable failure or an exhausted budget it re-raises. -/
def retryGo (op : Nat → Except PyExc α × List Event) :
    Nat → Nat → Except PyExc α × List Event
  | retries, budget =>
    match op retries with
    | (.ok v, ev) => (.ok v, Event.attempt retries :: ev)
    | (.error e, ev) =>
      if isRetryableExc e then
        match budget with
        | 0 => (.error e, Event.attempt retries :: ev)
        | b + 1 =>
          let rest := retryGo op (retries + 1) b
          (rest.1,
            (Event.attempt retries :: ev) ++
              Event.sleep (2 ^ (retries + 1) * 1000) :: rest.2)
      else (.error e, Event.attempt retries :: ev)

/-- `_retry_with_backoff(func, max_retries)`: run the loop from
`retries = 0` with the full budget. -/
def retry_with_backoff (op : Nat → Except PyExc α × List Event)
    (max_retries : Nat) : Except PyExc α × List Event :=
  retryGo op 0 max_retries

/-- Number of invocations of the retried function recorded in a trace. -/
def countAttempts (evs : List Event) : Nat :=
  (evs.filter fun ev => match ev with | .attempt _ => true | _ => false).length

/-- The backoff delays (in ms) recorded in a trace, in order. -/
def sleepsOf (evs : List Event) : List Nat :=
  evs.filterMap fun ev => match ev with | .sleep ms => some ms | _ => none

/-- Number of duplicate checks (the `locator(...).count()` call at
portal_uploader.py line 166) recorded in a trace. -/
def countDupChecks (evs : List Event) : Nat :=
  (evs.filter fun ev => ev = Event.dupCheck).length

/-- Run a sequence of unit-valued page calls in order, stopping at the
first raised exception; returns the result and the calls actually made. -/
def runSteps : List (Event × Except PyExc Unit) →
    Except PyExc Unit × List Event
  | [] => (.ok (), [])
  | (ev, r) :: rest =>
    match r with
    | .error e => (.error e, [ev])
    | .ok _ =>
      let tail := runSteps rest
      (tail.1, ev :: tail.2)

/-- Whether an optional field is filled: the Python test
`"description" in row and row["description"]` (column present and value
truthy). -/
def fieldTruthy : Option String → Bool
  | none => false
  | some s => s ≠ ""

/-- The duplicate branch of `do_upload` (portal_uploader.py lines
168-182): best-effort extraction of the existing portal id, whose bare
`except` falls back to "unknown", then the SKIP result dictionary, whose
processed_ts entry evaluates `datetime.now().isoformat()` (the argument
`dt`).  The trace lists the page calls made after the duplicate
check. -/
def dupFoundBranch (dt : Except PyExc String) (d : DriverAttempt) :
    Except PyExc RowOutcome × List Event :=
  let existing_id :=
    match d.extractExisting with
    | .ok s => s
    | .error _ => "unknown"
  match dt with
  | .error e => (.error e, [Event.extractExisting])
  | .ok ts =>
    (.ok { status := .SKIP, portal_id := some existing_id,
           error_msg := none, processed_ts := ts },
     [Event.extractExisting])

/-- The sequence of form-filling page calls (portal_uploader.py lines
187-206): required fields, file attachment, truthy optional fields,
submit click, success wait. -/
def formSteps (d : DriverAttempt) (row : InputRow) :
    List (Event × Except PyExc Unit) :=
  [(Event.fillServiceId, d.fillServiceId),
   (Event.fillPrice, d.fillPrice),
   (Event.setInputFiles, d.setInputFiles)] ++
  (if fieldTruthy row.description then
    [(Event.fillDescription, d.fillDescription)] else []) ++
  (if fieldTruthy row.invoice_date then
    [(Event.fillInvoiceDate, d.fillInvoiceDate)] else []) ++
  [(Event.clickSubmit, d.clickSubmit),
   (Event.waitSuccess, d.waitSuccess)]

/-- The form branch of `do_upload` (portal_uploader.py lines 184-216):
run the form-filling calls, read the portal id, and build the OK result
dictionary, whose processed_ts entry evaluates
`datetime.now().isoformat()` (the argument `dt`).  The trace lists the
page calls made after the duplicate check. -/
def formBranch (dt : Except PyExc String) (d : DriverAttempt)
    (row : InputRow) : Except PyExc RowOutcome × List Event :=
  match runSteps (formSteps d row) with
  | (.error e, evs) => (.error e, evs)
  | (.ok _, evs) =>
    match d.readPortalId with
    | .error e => (.error e, evs ++ [Event.readPortalId])
    | .ok pid =>
      match dt with
      | .error e => (.error e, evs ++ [Event.readPortalId])
      | .ok ts =>
        (.ok { status := .OK, portal_id := some pid,
               error_msg := none, processed_ts := ts },
         evs ++ [Event.readPortalId])

/-- The nested `do_upload` function (portal_uploader.py lines 160-216),
for one attempt described by the oracle `d`.  `dt` is the evaluation of
`datetime.now().isoformat()` in the module namespace (the source binding
is `datetimeNow`, which raises).  The workflow: navigate, count matches
of the service id in the records table, then either the duplicate (SKIP)
branch or the form-submission branch. -/
def do_upload (dt : Except PyExc String) (d : DriverAttempt)
    (row : InputRow) : Except PyExc RowOutcome × List Event :=
  match d.goto with
  | .error e => (.error e, [Event.navigate])
  | .ok _ =>
    match d.dupCount with
    | .error e => (.error e, [Event.navigate, Event.dupCheck])
    | .ok n =>
      let tail :=
        if 0 < n then dupFoundBranch dt d else formBranch dt d row
      (tail.1, Event.navigate :: Event.dupCheck :: tail.2)

/-- `upload_row` (portal_uploader.py lines 146-241): open a page, run
`do_upload` under `_retry_with_backoff` with the default
`max_retries = 3`, convert an escaped exception into an ERROR outcome in
the `except Exception` handler (whose dict literal itself evaluates
`datetime.now().isoformat()`), and close the page on every path.
`drv k` is the oracle for attempt `k`. -/
def upload_row (dt : Except PyExc String) (drv : Nat → DriverAttempt)
    (row : InputRow) : Except PyExc RowOutcome × List Event :=
  let run := retry_with_backoff (fun k => do_upload dt (drv k) row) 3
  match run.1 with
  | .ok outcome => (.ok outcome, run.2 ++ [Event.closePage])
  | .error e =>
    match dt with
    | .error ne => (.error ne, run.2 ++ [Event.closePage])
    | .ok ts =>
      (.ok { status := .ERROR, portal_id := none,
             error_msg := some (errorString e), processed_ts := ts },
       run.2 ++ [Event.closePage])

/-!
Models of main.py: the orchestrator (semaphore-bounded dispatch and
`asyncio.gather`), the result assembly and exit code, and the startup
validation sequence.
-/

/-- Semantics of `asyncio.gather(*tasks)` (main.py line 93): however the
scheduler interleaves the tasks, gather slots each task result at the
position of that task in its argument list.  `completions` is the list
of (task index, task result) pairs in actual completion order; the
assembled list places the result of task `i` at position `i`. -/
def gatherAssemble (n : Nat) (completions : List (Nat × ρ)) :
    List (Option ρ) :=
  (List.range n).map fun i =>
    (completions.find? fun c => c.1 == i).map Prod.snd

/-- The `status_counts` accumulation of main.py lines 96-98: counts of
OK, SKIP and ERROR statuses, in that order. -/
def status_counts (results : List Status) : Nat × Nat × Nat :=
  results.foldl
    (fun c s =>
      match s with
      | .OK => (c.1 + 1, c.2.1, c.2.2)
      | .SKIP => (c.1, c.2.1 + 1, c.2.2)
      | .ERROR => (c.1, c.2.1, c.2.2 + 1))
    (0, 0, 0)

/-- The exit-code computation of main.py lines 135-138: 2 when the ERROR
count is positive, otherwise 0. -/
def main_exit_code (results : List Status) : Nat :=
  if 0 < (status_counts results).2.2 then 2 else 0

/-- Oracle for the three release calls of `PortalUploader.__aexit__`. -/
structure CloseOps where
  context_close : Except PyExc Unit
  browser_close : Except PyExc Unit
  playwright_stop : Except PyExc Unit

/-- The release calls, in program order. -/
inductive CloseEvent where
  | contextClose
  | browserClose
  | playwrightStop
deriving DecidableEq, Repr

/-- `PortalUploader.__aexit__` (portal_uploader.py lines 65-72): close
the context, close the browser, stop Playwright, each guarded by an
attribute check but with no exception handling, so a raise in one call
abandons the remaining calls.  The flags model whether the attributes
are set (all true after a successful `__aenter__`); the returned trace
lists the calls actually made. -/
def aexit (hasCtx hasBrowser hasPw : Bool) (ops : CloseOps) :
    Except PyExc Unit × List CloseEvent :=
  if hasCtx then
    match ops.context_close with
    | .error e => (.error e, [CloseEvent.contextClose])
    | .ok _ =>
      if hasBrowser then
        match ops.browser_close with
        | .error e => (.error e, [CloseEvent.contextClose, CloseEvent.browserClose])
        | .ok _ =>
          if hasPw then
            match ops.playwright_stop with
            | .error e =>
              (.error e,
               [CloseEvent.contextClose, CloseEvent.browserClose,
                CloseEvent.playwrightStop])
            | .ok _ =>
              (.ok (),
               [CloseEvent.contextClose, CloseEvent.browserClose,
                CloseEvent.playwrightStop])
          else (.ok (), [CloseEvent.contextClose, CloseEvent.browserClose])
      else
        if hasPw then
          match ops.playwright_stop with
          | .error e => (.error e, [CloseEvent.contextClose, CloseEvent.playwrightStop])
          | .ok _ => (.ok (), [CloseEvent.contextClose, CloseEvent.playwrightStop])
        else (.ok (), [CloseEvent.contextClose])
  else
    if hasBrowser then
      match ops.browser_close with
      | .error e => (.error e, [CloseEvent.browserClose])
      | .ok _ =>
        if hasPw then
          match ops.playwright_stop with
          | .error e => (.error e, [CloseEvent.browserClose, CloseEvent.playwrightStop])
          | .ok _ => (.ok (), [CloseEvent.browserClose, CloseEvent.playwrightStop])
        else (.ok (), [CloseEvent.browserClose])
    else
      if hasPw then
        match ops.playwright_stop with
        | .error e => (.error e, [CloseEvent.playwrightStop])
        | .ok _ => (.ok (), [CloseEvent.playwrightStop])
      else (.ok (), [])

/-- The `async with PortalUploader(...)` scope of main.py lines 85-93:
if `__aenter__` raises, `__aexit__` never runs (no close calls at all);
otherwise `__aexit__` runs on every exit of the body, and an exception
it raises propagates in place of the body result. -/
def session_scope (enter : Except PyExc Unit) (ops : CloseOps)
    (body : Except PyExc α) : Except PyExc α × List CloseEvent :=
  match enter with
  | .error e => (.error e, [])
  | .ok _ =>
    let cl := aexit true true true ops
    match cl.1 with
    | .error e => (.error e, cl.2)
    | .ok _ => (body, cl.2)

/-- `REQUIRED_COLUMNS` of main.py line 18. -/
def REQUIRED_COLUMNS : List String := ["service_id", "price", "invoice_path"]

/-- `asyncio.Semaphore(value)` construction: raises `ValueError` for a
negative initial value and accepts any other, including zero. -/
def semaphore_init (value : Int) : Except PyExc Unit :=
  if value < 0 then
    .error (.valueError "Semaphore initial value must be >= 0")
  else .ok ()

/-- How far a run gets before row processing. -/
inductive MainStage where
  | exitCode (n : Nat)
  | raisedException (e : PyExc)
  | dispatched (tasks : Nat)
deriving DecidableEq, Repr

/-- The startup sequence of `main` (main.py lines 41-93): missing file,
unreadable CSV or missing required columns return exit code 1; then the
semaphore is constructed from the concurrency argument with no prior
validation of it; then one task per row is created and dispatched to
`asyncio.gather`. -/
def main_startup (csv_exists read_ok : Bool) (columns : List String)
    (nRows : Nat) (concurrency : Int) : MainStage :=
  if ¬csv_exists then .exitCode 1
  else if ¬read_ok then .exitCode 1
  else if (REQUIRED_COLUMNS.filter fun c => ¬(columns.contains c)) ≠ [] then
    .exitCode 1
  else
    match semaphore_init concurrency with
    | .error e => .raisedException e
    | .ok _ => .dispatched nRows

/-- Admission-gate transitions of the `asyncio.Semaphore` used in
`process_row` (main.py lines 37-38): a task enters only while
fewer than `c` tasks are active, and a release requires an active
task. -/
inductive GateEvent where
  | acquire
  | release
deriving DecidableEq, Repr

/-- Validity of a gate event sequence for capacity `c`, starting from
`active` running tasks. -/
def gate_ok (c : Nat) : List GateEvent → Nat → Bool
  | [], _ => true
  | .acquire :: rest, active =>
    if active < c then gate_ok c rest (active + 1) else false
  | .release :: rest, active =>
    if 0 < active then gate_ok c rest (active - 1) else false

/-!
Concrete fixtures used by the closed evaluations.
-/

/-- Row fixture with the three required fields and no optional fields. -/
def sampleRow : InputRow :=
  { service_id := "S1", price := "100.00", invoice_path := "invoices/a.pdf",
    description := none, invoice_date := none }

/-- Driver attempt on which every page call succeeds, no duplicate is
found, and the portal id element reads PORTAL-123. -/
def happyDriver : DriverAttempt :=
  { goto := .ok (), dupCount := .ok 0, extractExisting := .ok "",
    fillServiceId := .ok (), fillPrice := .ok (), setInputFiles := .ok (),
    fillDescription := .ok (), fillInvoiceDate := .ok (),
    clickSubmit := .ok (), waitSuccess := .ok (),
    readPortalId := .ok "PORTAL-123" }

/-- Driver attempt that finds the service id already present and
extracts the existing portal id P-9. -/
def dupDriver : DriverAttempt :=
  { happyDriver with dupCount := .ok 1, extractExisting := .ok "P-9" }

/-- Driver attempt whose navigation fails with a non-retryable error. -/
def navFailDriver : DriverAttempt :=
  { happyDriver with
    goto := .error (.other "Error" "net::ERR_CONNECTION_REFUSED") }

/-- Driver attempt that times out waiting for the success marker. -/
def timeoutDriver : DriverAttempt :=
  { happyDriver with
    waitSuccess := .error (.timeoutError "Timeout 5000ms exceeded") }

/-- Driver attempt on which the success marker appears but the portal-id
element carries empty text. -/
def emptyIdDriver : DriverAttempt :=
  { happyDriver with readPortalId := .ok "" }

/-- Per-attempt driver whose first attempt times out after the duplicate
check and whose retry finds the row already present. -/
def retryDupDrv : Nat → DriverAttempt :=
  fun k => if k = 0 then timeoutDriver else dupDriver

/-!
Helper lemmas about the retry loop and trace counting.
-/

theorem countAttempts_cons_attempt (k : Nat) (l : List Event) :
    countAttempts (Event.attempt k :: l) = countAttempts l + 1 := by
  simp [countAttempts]

theorem countAttempts_cons_sleep (ms : Nat) (l : List Event) :
    countAttempts (Event.sleep ms :: l) = countAttempts l := by
  simp [countAttempts]

/-- Behaviour of the retry loop on a pure operation, from any counter
state: some final attempt index `k` within the budget exists whose
result is returned (or re-raised), after exactly `k - retries + 1`
invocations. -/
theorem retryGo_spec (f : Nat → Except PyExc α) :
    ∀ (budget retries : Nat),
      ∃ k, retries ≤ k ∧ k ≤ retries + budget ∧
        (retryGo (fun i => (f i, [])) retries budget).1 = f k ∧
        countAttempts (retryGo (fun i => (f i, [])) retries budget).2
          = k - retries + 1 := by
  intro budget
  induction budget with
  | zero =>
    intro retries
    refine ⟨retries, le_refl _, by omega, ?_, ?_⟩ <;>
      · rw [retryGo]
        cases hf : f retries with
        | ok v => simp [hf, countAttempts]
        | error e =>
          by_cases hr : isRetryableExc e <;>
            simp [hf, hr, countAttempts]
  | succ b ih =>
    intro retries
    cases hf : f retries with
    | ok v =>
      refine ⟨retries, le_refl _, by omega, ?_, ?_⟩ <;>
        · rw [retryGo]; simp [hf, countAttempts]
    | error e =>
      by_cases hr : isRetryableExc e
      · obtain ⟨k, hk1, hk2, hres, hcount⟩ := ih (retries + 1)
        refine ⟨k, by omega, by omega, ?_, ?_⟩
        · rw [retryGo]; simp only [hf, hr, if_pos]
          exact hres
        · rw [retryGo]; simp only [hf, hr, if_pos]
          rw [List.cons_append, List.nil_append,
            countAttempts_cons_attempt, countAttempts_cons_sleep, hcount]
          omega
      · refine ⟨retries, le_refl _, by omega, ?_, ?_⟩ <;>
          · rw [retryGo]; simp [hf, hr, countAttempts]

/-- Claim C10: for every max_retries and every retried operation
(whatever values it returns or exceptions it raises per invocation),
_retry_with_backoff terminates - it is a total function of its inputs -
making exactly k + 1 invocations for some k at most max_retries, and its
result is the value returned, or the exception raised, by that last
invocation. -/
theorem C10_retry_terminates (f : Nat → Except PyExc α) (m : Nat) :
    ∃ k, k ≤ m ∧
      (retry_with_backoff (fun i => (f i, [])) m).1 = f k ∧
      countAttempts (retry_with_backoff (fun i => (f i, [])) m).2 = k + 1 := by
  obtain ⟨k, _, hk2, hres, hcount⟩ := retryGo_spec f m 0
  exact ⟨k, by omega, hres, by simpa using hcount⟩

/-!
The exit-code policy (claim C5).
-/

theorem status_counts_foldl (l : List Status) (c : Nat × Nat × Nat) :
    (l.foldl
      (fun c s =>
        match s with
        | .OK => (c.1 + 1, c.2.1, c.2.2)
        | .SKIP => (c.1, c.2.1 + 1, c.2.2)
        | .ERROR => (c.1, c.2.1, c.2.2 + 1)) c).2.2
      = c.2.2 + List.count Status.ERROR l := by
  induction l generalizing c with
  | nil => simp
  | cons s rest ih =>
    cases s <;> (simp [List.count_cons, ih]; try omega)

theorem status_counts_error (l : List Status) :
    (status_counts l).2.2 = List.count Status.ERROR l := by
  unfold status_counts
  simpa using status_counts_foldl l (0, 0, 0)

/-- Claim C5: for a run that reaches result processing, the exit code is
2 iff some row outcome has status ERROR, and 0 iff every row outcome has
status OK or SKIP. -/
theorem C5_exit_code (results : List Status) :
    (main_exit_code results = 2 ↔ Status.ERROR ∈ results) ∧
    (main_exit_code results = 0 ↔
      ∀ s ∈ results, s = Status.OK ∨ s = Status.SKIP) := by
  have h := status_counts_error results
  have hmem : Status.ERROR ∈ results ↔
      ¬(∀ s ∈ results, s = Status.OK ∨ s = Status.SKIP) := by
    constructor
    · intro hm hall
      rcases hall _ hm with h1 | h1 <;> cases h1
    · intro hall
      by_contra hnm
      apply hall
      intro s hs
      cases s with
      | OK => exact Or.inl rfl
      | SKIP => exact Or.inr rfl
      | ERROR => exact absurd hs hnm
  unfold main_exit_code
  rw [h]
  by_cases hc : Status.ERROR ∈ results
  · have : 0 < List.count Status.ERROR results := List.count_pos_iff.mpr hc
    rw [if_pos this]
    simp only [true_iff, hc]
    constructor
    · simp
    · rw [hmem] at hc
      simpa using hc
  · have : ¬0 < List.count Status.ERROR results := by
      simp [List.count_eq_zero_of_not_mem hc]
    rw [if_neg this]
    rw [hmem] at hc
    push_neg at hc
    exact ⟨⟨fun h02 => absurd h02 (by decide),
        fun hm => absurd (List.count_pos_iff.mpr hm) this⟩,
      ⟨fun _ => hc, fun _ => rfl⟩⟩

/-!
Claim C1: the Row Submitter contract.
-/

/-- Claim C1 (code bug in the source): upload_row cannot return a
RowOutcome on any path.  The module never imports datetime, so the SKIP
return, the OK return, and the ERROR handler itself all raise NameError
while building their result dictionary, and the exception escapes
upload_row.  The three conjuncts evaluate a fully successful run, a
duplicate-found run, and a failed run. -/
theorem C1_upload_row_raises :
    (upload_row datetimeNow (fun _ => happyDriver) sampleRow).1
        = .error (.nameError "name datetime is not defined") ∧
    (upload_row datetimeNow (fun _ => dupDriver) sampleRow).1
        = .error (.nameError "name datetime is not defined") ∧
    (upload_row datetimeNow (fun _ => navFailDriver) sampleRow).1
        = .error (.nameError "name datetime is not defined") :=
  ⟨rfl, rfl, rfl⟩

/-!
Claim C4: retry exhaustion, attempt count and backoff delays.
-/

/-- Claim C4 (amended): when every attempt fails retryably with
max_retries = 3, exactly 4 invocations are made, the inter-attempt
delays are 2x, 4x, 8x the 1000 ms base unit (2000, 4000, 8000 ms), and
the error of the last attempt is propagated to the caller. -/
theorem C4_retry_exhaustion (f : Nat → Except PyExc α)
    (e0 e1 e2 e3 : PyExc)
    (h0 : f 0 = .error e0) (h1 : f 1 = .error e1)
    (h2 : f 2 = .error e2) (h3 : f 3 = .error e3)
    (r0 : isRetryableExc e0 = true) (r1 : isRetryableExc e1 = true)
    (r2 : isRetryableExc e2 = true) (r3 : isRetryableExc e3 = true) :
    retry_with_backoff (fun i => (f i, [])) 3 =
      (.error e3,
       [Event.attempt 0, Event.sleep 2000, Event.attempt 1,
        Event.sleep 4000, Event.attempt 2, Event.sleep 8000,
        Event.attempt 3]) := by
  unfold retry_with_backoff
  rw [retryGo]
  simp only [h0, r0, if_true]
  rw [retryGo]
  simp only [h1, r1, if_true]
  rw [retryGo]
  simp only [h2, r2, if_true]
  rw [retryGo]
  simp only [h3, r3, if_true]
  norm_num

/-- Always-retryable operation used to instantiate C4. -/
def alwaysTimeout : Nat → Except PyExc Unit :=
  fun _ => .error (.timeoutError "Timeout 5000ms exceeded")

theorem C4_retry_exhaustion_witness :
    retry_with_backoff (fun i => (alwaysTimeout i, [])) 3 =
      (.error (.timeoutError "Timeout 5000ms exceeded"),
       [Event.attempt 0, Event.sleep 2000, Event.attempt 1,
        Event.sleep 4000, Event.attempt 2, Event.sleep 8000,
        Event.attempt 3]) :=
  C4_retry_exhaustion alwaysTimeout _ _ _ _ rfl rfl rfl rfl rfl rfl rfl rfl

/-- Claim C4 as stated is false on the code: the delays actually slept
are 2000, 4000, 8000 ms, not the claimed base, 2x base, 4x base (1000,
2000, 4000 ms). -/
theorem C4_counterexample :
    sleepsOf (retry_with_backoff (fun i => (alwaysTimeout i, [])) 3).2
        = [2000, 4000, 8000] ∧
    [2000, 4000, 8000] ≠ [1000, 2000, 4000] :=
  ⟨rfl, by decide⟩

/-!
Claim C6: error classification and terminal propagation.
-/

/-- Claim C6: the retry policy classifies an error as retryable exactly
when it is a timeout, or its message signals an HTTP 429 or an explicit
rate limit; every other error is propagated to the caller after a single
invocation, with no further attempt and no backoff sleep. -/
theorem C6_classification :
    (∀ e : PyExc, retryableSpec e ↔ isRetryableExc e = true) ∧
    (∀ (f : Nat → Except PyExc Unit) (m : Nat) (e : PyExc),
      f 0 = .error e → isRetryableExc e = false →
      retry_with_backoff (fun i => (f i, [])) m =
        (.error e, [Event.attempt 0])) := by
  constructor
  · intro e
    unfold retryableSpec isRetryableExc
    cases h1 : e.isTimeout <;> cases h2 : strContains e.msg "429" <;>
      cases h3 : strContains e.msg "Rate Limit" <;> simp [h1, h2, h3]
  · intro f m e h0 hr
    unfold retry_with_backoff
    rw [retryGo]
    simp [h0, hr]

/-- Terminal error used to instantiate C6. -/
def terminalErr : PyExc :=
  .other "ValueError" "could not convert string to float"

/-- Always-terminal operation used to instantiate C6. -/
def alwaysTerminal : Nat → Except PyExc Unit :=
  fun _ => .error terminalErr

theorem C6_classification_witness :
    retry_with_backoff (fun i => (alwaysTerminal i, [])) 3 =
      (.error terminalErr, [Event.attempt 0]) :=
  C6_classification.2 alwaysTerminal 3 terminalErr rfl (by decide)

/-!
Claim C3: what the retry policy wraps.
-/

theorem countDup_append (a b : List Event) :
    countDupChecks (a ++ b) = countDupChecks a + countDupChecks b := by
  simp [countDupChecks, List.filter_append]

/-- On any attempt whose navigation call succeeds, the duplicate check
is executed: the attempt trace begins navigate, dupCheck. -/
theorem do_upload_events_goto_ok (dt : Except PyExc String)
    (d : DriverAttempt) (row : InputRow) (hg : d.goto = .ok ()) :
    ∃ l, (do_upload dt d row).2 = Event.navigate :: Event.dupCheck :: l := by
  obtain ⟨g, dc, ex, f1, f2, f3, f4, f5, f6, f7, rp⟩ := d
  simp only at hg
  subst hg
  cases dc with
  | error e => exact ⟨[], rfl⟩
  | ok n => exact ⟨_, rfl⟩

/-- The trace of the whole retry run contains at least the duplicate
checks of the first attempt it makes. -/
theorem countDup_retryGo_le (op : Nat → Except PyExc α × List Event)
    (budget retries : Nat) :
    countDupChecks (op retries).2 ≤
      countDupChecks (retryGo op retries budget).2 := by
  rw [retryGo]
  rcases h : op retries with ⟨r, ev⟩
  cases r with
  | ok v => simp [countDupChecks]
  | error e =>
    by_cases hr : isRetryableExc e
    · cases budget with
      | zero => simp [hr, countDupChecks]
      | succ b =>
        simp only [hr, if_true]
        simp [countDupChecks, List.filter_append]
    · simp [hr, countDupChecks]

/-- The events of upload_row are those of the retry run followed by the
page close, on every path. -/
theorem upload_row_events (dt : Except PyExc String)
    (drv : Nat → DriverAttempt) (row : InputRow) :
    (upload_row dt drv row).2 =
      (retry_with_backoff (fun k => do_upload dt (drv k) row) 3).2
        ++ [Event.closePage] := by
  unfold upload_row
  cases h1 : (retry_with_backoff (fun k => do_upload dt (drv k) row) 3).1 with
  | ok v => simp [h1]
  | error e => cases dt <;> simp [h1]

/-- Claim C3 (amended): the retry policy wraps the entire do_upload body,
duplicate check included: whenever the first attempt passes navigation
and then fails with a retryable error, and the retry attempt passes
navigation again, the duplicate check executes at least twice for the
row. -/
theorem C3_dup_check_retried (dt : Except PyExc String)
    (drv : Nat → DriverAttempt) (row : InputRow) (e : PyExc)
    (hg0 : (drv 0).goto = .ok ())
    (h0 : (do_upload dt (drv 0) row).1 = .error e)
    (hr : isRetryableExc e = true)
    (hg1 : (drv 1).goto = .ok ()) :
    2 ≤ countDupChecks (upload_row dt drv row).2 := by
  rw [upload_row_events, countDup_append]
  obtain ⟨l0, hl0⟩ := do_upload_events_goto_ok dt (drv 0) row hg0
  obtain ⟨l1, hl1⟩ := do_upload_events_goto_ok dt (drv 1) row hg1
  have main : 2 ≤ countDupChecks
      (retry_with_backoff (fun k => do_upload dt (drv k) row) 3).2 := by
    have c1 : 1 ≤ countDupChecks
        (retryGo (fun k => do_upload dt (drv k) row) 1 2).2 := by
      have h1le : 1 ≤ countDupChecks (do_upload dt (drv 1) row).2 := by
        rw [hl1]; simp [countDupChecks]
      exact le_trans h1le
        (countDup_retryGo_le (fun k => do_upload dt (drv k) row) 2 1)
    have c0 : 1 ≤ countDupChecks (do_upload dt (drv 0) row).2 := by
      rw [hl0]; simp [countDupChecks]
    unfold retry_with_backoff
    rw [retryGo]
    simp only []
    rcases hop : do_upload dt (drv 0) row with ⟨r0, ev0⟩
    rw [hop] at h0 c0
    simp only at h0 c0
    subst h0
    simp only [hr, if_true]
    simp [countDupChecks, List.filter_append] at c0 c1 ⊢
    omega
  omega

/-- Claim C3 as stated is false on the code: a first attempt that times
out after its duplicate check is retried from the top, and the retry
runs the duplicate check again, so the check executes twice for one
row. -/
theorem C3_counterexample :
    countDupChecks (upload_row datetimeNow retryDupDrv sampleRow).2 = 2 ∧
    ¬countDupChecks (upload_row datetimeNow retryDupDrv sampleRow).2 ≤ 1 :=
  ⟨rfl, by decide⟩

theorem C3_dup_check_retried_witness :
    2 ≤ countDupChecks (upload_row datetimeNow retryDupDrv sampleRow).2 :=
  C3_dup_check_retried datetimeNow retryDupDrv sampleRow
    (.timeoutError "Timeout 5000ms exceeded") rfl rfl (by decide) rfl

/-!
Claim C2: order preservation under concurrent completion.
-/

/-- Claim C2: for any list of rows and any completion order of the
per-row tasks (each task computing the outcome of its own row), the
gathered result sequence carries at position i the outcome of input row
i - the final result list, and hence the output table built from it in
order, preserves the input row order regardless of completion order. -/
theorem C2_gather_order (rows : List α) (submit : α → ρ)
    (completions : List (Nat × ρ))
    (hkeys : (completions.map Prod.fst).Perm (List.range rows.length))
    (hdet : ∀ p ∈ completions, (rows[p.1]?).map submit = some p.2) :
    gatherAssemble rows.length completions =
      rows.map (fun r => some (submit r)) := by
  apply List.ext_getElem
  · simp [gatherAssemble]
  · intro i h1 h2
    have hn : i < rows.length := by
      simpa [gatherAssemble] using h1
    simp only [gatherAssemble, List.getElem_map, List.getElem_range]
    have hmem : i ∈ completions.map Prod.fst := by
      rw [hkeys.mem_iff]
      exact List.mem_range.mpr hn
    obtain ⟨p, hp, hpi⟩ := List.mem_map.mp hmem
    have hsome : (completions.find? fun c => c.1 == i).isSome := by
      rw [List.find?_isSome]
      exact ⟨p, hp, by simp [hpi]⟩
    obtain ⟨q, hq⟩ := Option.isSome_iff_exists.mp hsome
    have hqmem := List.mem_of_find?_eq_some hq
    have hqi : q.1 = i := by
      have := List.find?_some hq
      simpa using this
    have hd := hdet q hqmem
    rw [hqi, List.getElem?_eq_getElem hn] at hd
    simp at hd
    rw [hq]
    simp [hd]

theorem C2_gather_order_witness :
    gatherAssemble (["a", "b", "c"] : List String).length
        [(2, "c!"), (0, "a!"), (1, "b!")] =
      ["a", "b", "c"].map (fun r => some (r ++ "!")) :=
  C2_gather_order ["a", "b", "c"] (fun r => r ++ "!")
    [(2, "c!"), (0, "a!"), (1, "b!")] (by decide) (by decide)

/-!
Claim C7: release order and exit paths.
-/

/-- Close oracle on which all three release calls succeed. -/
def allCloseOk : CloseOps :=
  { context_close := .ok (), browser_close := .ok (),
    playwright_stop := .ok () }

/-- Close oracle whose context close raises. -/
def ctxCloseFails : CloseOps :=
  { allCloseOk with
    context_close := .error (.other "Error" "context already closed") }

/-- Claim C7 as stated is false on the code: when context.close()
raises, neither browser.close() nor playwright.stop() is executed. -/
theorem C7_counterexample :
    (aexit true true true ctxCloseFails).2 = [CloseEvent.contextClose] ∧
    CloseEvent.browserClose ∉ (aexit true true true ctxCloseFails).2 ∧
    CloseEvent.playwrightStop ∉ (aexit true true true ctxCloseFails).2 :=
  ⟨rfl, by decide, by decide⟩

/-- Claim C7 (amended): release makes its calls in the order context
close, browser close, driver stop, and it runs on every exit of the
session scope once acquisition succeeded (body failure included); but a
later call runs only if the earlier calls did not raise - a raising
close abandons the remaining calls - and when acquisition itself fails,
release does not run at all. -/
theorem C7_release_order (ops : CloseOps) :
    (ops.context_close = .ok () → ops.browser_close = .ok () →
      (aexit true true true ops).2 =
        [CloseEvent.contextClose, CloseEvent.browserClose,
         CloseEvent.playwrightStop]) ∧
    (∀ e, ops.context_close = .error e →
      aexit true true true ops = (.error e, [CloseEvent.contextClose])) ∧
    (∀ e, ops.context_close = .ok () → ops.browser_close = .error e →
      aexit true true true ops =
        (.error e, [CloseEvent.contextClose, CloseEvent.browserClose])) ∧
    (∀ body : Except PyExc Unit,
      (session_scope (.ok ()) ops body).2 = (aexit true true true ops).2) ∧
    (∀ (e : PyExc) (body : Except PyExc Unit),
      session_scope (.error e) ops body = (.error e, [])) := by
  obtain ⟨c1, c2, c3⟩ := ops
  refine ⟨?_, ?_, ?_, ?_, ?_⟩
  · intro h1 h2
    simp only at h1 h2
    subst h1
    subst h2
    cases c3 <;> rfl
  · intro e h1
    simp only at h1
    subst h1
    rfl
  · intro e h1 h2
    simp only at h1 h2
    subst h1
    subst h2
    rfl
  · intro body
    unfold session_scope
    cases hcl : (aexit true true true ⟨c1, c2, c3⟩).1 <;> simp [hcl]
  · intro e body
    rfl

theorem C7_release_order_witness :
    (aexit true true true allCloseOk).2 =
      [CloseEvent.contextClose, CloseEvent.browserClose,
       CloseEvent.playwrightStop] :=
  (C7_release_order allCloseOk).1 rfl rfl

/-!
Claim C8: concurrency validation.
-/

/-- Claim C8 as stated is false on the code: with concurrency 0 and a
valid one-row input, the run is not rejected - startup completes and the
row task is dispatched (it then blocks forever at the admission gate, as
the amended theorem shows). -/
theorem C8_counterexample :
    main_startup true true REQUIRED_COLUMNS 1 0 = MainStage.dispatched 1 ∧
    main_startup true true REQUIRED_COLUMNS 1 0 ≠ MainStage.exitCode 1 :=
  ⟨by decide, by decide⟩

/-- Claim C8 (amended): main never validates the concurrency argument.
For any input passing the column check, a negative concurrency aborts
with the ValueError raised by the Semaphore constructor - after input
validation, before any task exists - while concurrency 0 passes startup
and dispatches every row task; the capacity-0 admission gate then never
lets any task enter. -/
theorem C8_no_concurrency_validation (cols : List String) (nRows : Nat)
    (hcols : REQUIRED_COLUMNS.filter (fun c => ¬(cols.contains c)) = []) :
    (∀ c : Int, c < 0 →
      main_startup true true cols nRows c =
        MainStage.raisedException
          (.valueError "Semaphore initial value must be >= 0")) ∧
    (∀ c : Int, 0 ≤ c →
      main_startup true true cols nRows c = MainStage.dispatched nRows) ∧
    (∀ (evs : List GateEvent) (active : Nat),
      gate_ok 0 evs active = true → GateEvent.acquire ∉ evs) := by
  refine ⟨?_, ?_, ?_⟩
  · intro c hc
    unfold main_startup semaphore_init
    simp [hcols, hc]
    simpa using hcols
  · intro c hc
    unfold main_startup semaphore_init
    simp [hcols, Int.not_lt.mpr hc]
    simpa using hcols
  · intro evs
    induction evs with
    | nil =>
      intro active _h
      simp
    | cons ev rest ih =>
      intro active h
      cases ev with
      | acquire =>
        simp only [gate_ok] at h
        simp at h
      | release =>
        simp only [gate_ok] at h
        by_cases ha : 0 < active
        · rw [if_pos ha] at h
          have hrest := ih (active - 1) h
          simp [hrest]
        · rw [if_neg ha] at h
          cases h

theorem C8_no_concurrency_validation_witness :
    main_startup true true REQUIRED_COLUMNS 1 (-1) =
      MainStage.raisedException
        (.valueError "Semaphore initial value must be >= 0") :=
  (C8_no_concurrency_validation REQUIRED_COLUMNS 1 (by decide)).1 (-1)
    (by decide)

/-!
Claim C9: shape of the outcomes upload_row can return.
-/

theorem dupFoundBranch_ok (dt : Except PyExc String) (d : DriverAttempt)
    (o : RowOutcome) (h : (dupFoundBranch dt d).1 = .ok o) :
    o.status = .SKIP ∧ o.error_msg = none ∧
      ∃ pid, o.portal_id = some pid := by
  unfold dupFoundBranch at h
  split at h <;> split at h
  · simp at h
  · simp only [Except.ok.injEq] at h
    subst h
    exact ⟨rfl, rfl, _, rfl⟩
  · simp at h
  · simp only [Except.ok.injEq] at h
    subst h
    exact ⟨rfl, rfl, _, rfl⟩

theorem formBranch_ok (dt : Except PyExc String) (d : DriverAttempt)
    (row : InputRow) (o : RowOutcome)
    (h : (formBranch dt d row).1 = .ok o) :
    o.status = .OK ∧ o.error_msg = none ∧
      ∃ pid, o.portal_id = some pid := by
  unfold formBranch at h
  rcases hq : runSteps (formSteps d row) with ⟨r, evs⟩
  rw [hq] at h
  split at h
  · simp at h
  · split at h
    · simp at h
    · split at h
      · simp at h
      · simp only [Except.ok.injEq] at h
        subst h
        exact ⟨rfl, rfl, _, rfl⟩

/-- Any outcome do_upload can return is the SKIP or the OK dictionary:
its error_msg is absent and its portal_id is present. -/
theorem do_upload_ok_shape (dt : Except PyExc String) (d : DriverAttempt)
    (row : InputRow) (o : RowOutcome)
    (h : (do_upload dt d row).1 = .ok o) :
    (o.status = .OK ∨ o.status = .SKIP) ∧ o.error_msg = none ∧
      ∃ pid, o.portal_id = some pid := by
  unfold do_upload at h
  split at h
  · simp at h
  · split at h
    · simp at h
    · simp only at h
      rename_i n heqn
      by_cases hn : 0 < n
      · rw [if_pos hn] at h
        obtain ⟨h1, h2, h3⟩ := dupFoundBranch_ok dt d o h
        exact ⟨Or.inr h1, h2, h3⟩
      · rw [if_neg hn] at h
        obtain ⟨h1, h2, h3⟩ := formBranch_ok dt d row o h
        exact ⟨Or.inl h1, h2, h3⟩

/-- A successful retry run returns a value produced by one of the
invocations of the operation. -/
theorem retryGo_ok_from_op (op : Nat → Except PyExc α × List Event) :
    ∀ (budget retries : Nat) (v : α),
      (retryGo op retries budget).1 = .ok v →
      ∃ k, (op k).1 = .ok v := by
  intro budget
  induction budget with
  | zero =>
    intro retries v h
    rw [retryGo] at h
    rcases hop : op retries with ⟨r, ev⟩
    rw [hop] at h
    cases r with
    | ok w =>
      simp at h
      exact ⟨retries, by rw [hop]; simp [h]⟩
    | error e =>
      by_cases hr : isRetryableExc e <;> simp [hr] at h
  | succ b ih =>
    intro retries v h
    rw [retryGo] at h
    rcases hop : op retries with ⟨r, ev⟩
    rw [hop] at h
    cases r with
    | ok w =>
      simp at h
      exact ⟨retries, by rw [hop]; simp [h]⟩
    | error e =>
      by_cases hr : isRetryableExc e
      · simp only [hr, if_true] at h
        exact ih (retries + 1) v h
      · simp [hr] at h

/-- Any outcome upload_row can return comes either from a successful
do_upload attempt or from the ERROR handler (which needs a successful
timestamp evaluation). -/
theorem upload_row_ok_cases (dt : Except PyExc String)
    (drv : Nat → DriverAttempt) (row : InputRow) (o : RowOutcome)
    (h : (upload_row dt drv row).1 = .ok o) :
    (∃ k, (do_upload dt (drv k) row).1 = .ok o) ∨
    (∃ e ts, dt = .ok ts ∧
      o = { status := .ERROR, portal_id := none,
            error_msg := some (errorString e), processed_ts := ts }) := by
  unfold upload_row at h
  simp only [] at h
  rcases hrun : (retry_with_backoff (fun k => do_upload dt (drv k) row) 3).1
    with eRun | outcome
  · rw [hrun] at h
    cases dt with
    | error ne => simp at h
    | ok ts =>
      simp only [Except.ok.injEq] at h
      exact Or.inr ⟨eRun, ts, rfl, h.symm⟩
  · rw [hrun] at h
    simp only [Except.ok.injEq] at h
    subst h
    obtain ⟨k, hk⟩ := retryGo_ok_from_op
      (fun k => do_upload dt (drv k) row) 3 0 outcome hrun
    exact Or.inl ⟨k, hk⟩

/-- Claim C9 (amended): every RowOutcome upload_row can return has
error_msg present exactly when its status is ERROR and portal_id present
exactly when its status is OK or SKIP (every SKIP is a duplicate-found,
with the sentinel "unknown" when extraction fails); an OK outcome's
portal_id, however, is the raw text of the portal-id element and may be
empty, and under the source's own datetime binding no outcome is
returned at all (claim C1). -/
theorem C9_outcome_invariants (dt : Except PyExc String)
    (drv : Nat → DriverAttempt) (row : InputRow) (o : RowOutcome)
    (h : (upload_row dt drv row).1 = .ok o) :
    (o.error_msg.isSome ↔ o.status = .ERROR) ∧
    (o.portal_id.isSome ↔ (o.status = .OK ∨ o.status = .SKIP)) := by
  rcases upload_row_ok_cases dt drv row o h with ⟨k, hk⟩ | ⟨e, ts, _, ho⟩
  · obtain ⟨h1, h2, pid, h3⟩ := do_upload_ok_shape dt (drv k) row o hk
    constructor
    · rw [h2]
      simp only [Option.isSome_none, false_iff]
      rcases h1 with h1 | h1 <;> rw [h1] <;> simp
    · rw [h3]
      simp [h1]
  · subst ho
    simp

/-- Outcome fixture returned by a fully successful run with a successful
timestamp evaluation. -/
def okOutcomeFixture : RowOutcome :=
  { status := .OK, portal_id := some "PORTAL-123", error_msg := none,
    processed_ts := "2026-05-01T00:00:00" }

theorem C9_outcome_invariants_witness :
    (okOutcomeFixture.error_msg.isSome ↔
      okOutcomeFixture.status = .ERROR) ∧
    (okOutcomeFixture.portal_id.isSome ↔
      (okOutcomeFixture.status = .OK ∨ okOutcomeFixture.status = .SKIP)) :=
  C9_outcome_invariants (.ok "2026-05-01T00:00:00") (fun _ => happyDriver)
    sampleRow okOutcomeFixture rfl

/-- Claim C9 as stated is false on the code: when the portal-id element
reads as empty text (and the timestamp evaluation is modelled as
succeeding, without which no outcome is returned at all), the produced
outcome has status OK with a present but empty portal_id, refuting the
claimed non-emptiness for OK rows. -/
theorem C9_counterexample :
    (upload_row (.ok "2026-05-01T00:00:00") (fun _ => emptyIdDriver)
        sampleRow).1 =
      .ok { status := .OK, portal_id := some "", error_msg := none,
            processed_ts := "2026-05-01T00:00:00" } ∧
    ¬("" : String).length > 0 :=
  ⟨rfl, by decide⟩
